import Mathlib

/-!
# A logging facade over zap: embedding and verified properties

The package under study (`log.go`) is a thin layer over two libraries: the zap
logging engine and the lumberjack rotating file writer.  The embedding below
has two layers.

* The library layer models the parts of zap and lumberjack that `log.go`
  calls: levels, fields, the io core with its level check, the checked entry
  with its panic and exit actions, the sugared logger, the multi write syncer
  and the rotating file writer.
* The package layer translates `log.go` itself: `Config`, `defaultCfg`,
  `DefaultZapLogger`, the facade functions, `Config.Init`, `newRollingFile`
  and `Config.newZapLogger`.

Effects are explicit.  The process state is the global logger variable plus a
world holding what has been written to standard output and to log files.  A
call returns an `Outcome` (normal return, panic, or process exit) together
with the new state.

The call stack is part of the environment of a call: `Env.stackDepth` counts
the frames above the function being called, and a function that calls
another passes an environment that is one frame deeper. Caller capture reads
the stack through this count, and sums of skip counts wrap at 64 bits as the
machine integers of the source do.

Not modelled: time stamps, stack traces, `Sync`, the diagnostic stream zap
uses for its own internal errors, backup files produced by rotation, and
concurrency.
-/

namespace ZapLog

/-! ## Library layer: zapcore levels, fields and records -/

/-- zapcore.DebugLevel (zapcore.Level is a signed 8 bit integer). -/
def DebugLevel : Int := -1
/-- zapcore.InfoLevel, the zero value of zapcore.Level. -/
def InfoLevel : Int := 0
/-- zapcore.WarnLevel. -/
def WarnLevel : Int := 1
/-- zapcore.ErrorLevel. -/
def ErrorLevel : Int := 2
/-- zapcore.DPanicLevel. -/
def DPanicLevel : Int := 3
/-- zapcore.PanicLevel. -/
def PanicLevel : Int := 4
/-- zapcore.FatalLevel. -/
def FatalLevel : Int := 5

/-- Level.String of zapcore, which is also what zapcore.LowercaseLevelEncoder
appends: the lower-case name of a known level. -/
def Level.String (l : Int) : String :=
  if l = DebugLevel then "debug"
  else if l = InfoLevel then "info"
  else if l = WarnLevel then "warn"
  else if l = ErrorLevel then "error"
  else if l = DPanicLevel then "dpanic"
  else if l = PanicLevel then "panic"
  else if l = FatalLevel then "fatal"
  else "Level(" ++ toString l ++ ")"

/-- Dynamic values that can be attached to a record.  `other` stands for any
value that zap encodes by reflection. -/
inductive Value where
  | bool (b : Bool)
  | str (s : String)
  | int (i : Int)
  | err (e : String)
  | other (repr : String)
  deriving DecidableEq, Repr

/-- zapcore.Field: a key with a value. -/
structure Field where
  Key : String
  Val : Value
  deriving DecidableEq, Repr

/-- zap.Bool. -/
def zapBool (key : String) (val : Bool) : Field := ⟨key, .bool val⟩
/-- zap.String. -/
def zapString (key : String) (val : String) : Field := ⟨key, .str val⟩
/-- zap.Int. -/
def zapInt (key : String) (val : Int) : Field := ⟨key, .int val⟩
/-- zap.Error applied to a non-nil error: the key is always "error". -/
def zapError (err : String) : Field := ⟨"error", .err err⟩

/-- An element of a variadic `...interface{}` argument list: either a
strongly typed zap field or a plain value. -/
inductive Arg where
  | field (f : Field)
  | value (v : Value)
  deriving DecidableEq, Repr

/-- zap.Any for the value half of a loosely typed pair. -/
def zapAny (key : String) (val : Arg) : Field :=
  match val with
  | .value v => ⟨key, v⟩
  | .field _ => ⟨key, .other "zap.Field"⟩

/-- The two encoders of zapcore that the package chooses between. -/
inductive Encoder where
  | console
  | json
  deriving DecidableEq, Repr

/-- zapcore.Entry, restricted to the members the encoder configuration of the
package prints.  `Caller` is the number of stack frames skipped when the call
site was captured, or `none` when it was not captured or no frame was found
there. -/
structure Entry where
  Level : Int
  Message : String
  Caller : Option Int
  deriving DecidableEq, Repr

/-- One encoded record as it reaches a sink: which encoder produced it, the
text under the "level" key, the text under the "msg" key, the captured caller
and the fields in order. -/
structure Record where
  enc : Encoder
  level : String
  msg : String
  caller : Option Int
  fields : List Field
  deriving DecidableEq, Repr

/-- EncodeEntry with the encoder configuration built in `newZapLogger`
(LevelKey "level", MessageKey "msg", LowercaseLevelEncoder). -/
def EncodeEntry (enc : Encoder) (ent : Entry) (fields : List Field) : Record :=
  { enc := enc, level := Level.String ent.Level, msg := ent.Message,
    caller := ent.Caller, fields := fields }

/-! ## Library layer: sinks -/

/-- lumberjack.Logger as configured by `newRollingFile`. -/
structure RollingFile where
  Filename : String
  MaxSize : Int
  MaxAge : Int
  MaxBackups : Int
  deriving DecidableEq, Repr

/-- The leaf write destinations the package ever builds: `os.Stdout` and a
lumberjack logger wrapped by zapcore.AddSync. -/
inductive Sink where
  | stdout
  | file (l : RollingFile)
  deriving DecidableEq, Repr

/-- What has been written so far: the records on standard output (oldest
first) and the log files that exist, each with its records. -/
structure World where
  stdout : List Record
  files : List (String × List Record)
  deriving DecidableEq, Repr

/-- The operating system and library behaviour the package depends on but
does not define. `MkdirAll` gives `none` on success and the error otherwise.
`fileAccepts` says whether a write of a record to a rotating file succeeds
(the directory is writable and the record fits the size limit), given the
current content of the file if it exists. `fileRotates` says whether that
write first moves the current file away and starts a fresh one.
`stackDepth` describes the call stack at the call under consideration: the
function being called has `stackDepth + 2` frames above its own, the two that
every call has (the calling function and the frame that started it) and
`stackDepth` more. `runtimeFrame` says whether the runtime reports a frame
when asked for a negative skip. -/
structure Env where
  MkdirAll : String → Option String
  Join : String → String → String
  Sprintf : String → List Arg → String
  Sprint : List Arg → String
  fileAccepts : RollingFile → Option (List Record) → Record → Bool
  fileRotates : RollingFile → List Record → Record → Bool
  stackDepth : Nat
  runtimeFrame : Int → Bool

/-- The environment of a call made by the current function: the same
surroundings with one more frame on the stack. -/
def Env.deeper (env : Env) : Env := { env with stackDepth := env.stackDepth + 1 }

/-- Wrap an integer to the signed 64 bit range of the `int` of the source. -/
def wrapInt64 (x : Int) : Int :=
  (x + 9223372036854775808) % 18446744073709551616 - 9223372036854775808

/-- runtime.Caller as called by the current function: skip 0 is the current
function and skip k the k-th frame above it. A frame is found when the skip
does not go past the top of the stack; for a negative skip the runtime
decides. The result is the skip at which a frame was found, or `none` when
no frame was found. -/
def runtimeCaller (env : Env) (skip : Int) : Option Int :=
  if skip < 0 then (if env.runtimeFrame skip then some skip else none)
  else if skip ≤ env.stackDepth + 2 then some skip else none

/-- The content of the file at a path, if the file exists. -/
def World.readFile (w : World) (p : String) : Option (List Record) :=
  (w.files.find? (fun e => e.1 == p)).map (fun e => e.2)

/-- Create or replace the file at a path. -/
def World.writeFile (w : World) (p : String) (content : List Record) : World :=
  { w with files := (p, content) :: w.files.filter (fun e => e.1 != p) }

/-- Write of lumberjack.Logger: the file is opened or created on the first
write, rotated when needed, and the record is appended. A rejected write
changes nothing. -/
def RollingFile.Write (env : Env) (l : RollingFile) (r : Record) (w : World) : World :=
  let cur := w.readFile l.Filename
  if env.fileAccepts l cur r then
    let old := cur.getD []
    let kept := if env.fileRotates l old r then [] else old
    w.writeFile l.Filename (kept ++ [r])
  else w

/-- Write on a leaf sink. -/
def Sink.Write (env : Env) (s : Sink) (r : Record) (w : World) : World :=
  match s with
  | .stdout => { w with stdout := w.stdout ++ [r] }
  | .file l => l.Write env r w

/-- zapcore.WriteSyncer values the package builds: a leaf used directly, or
a multiWriteSyncer over a slice of leaves. -/
inductive WriteSyncer where
  | single (s : Sink)
  | multi (ws : List Sink)
  deriving DecidableEq, Repr

/-- zapcore.NewMultiWriteSyncer: a slice of length one is returned as its
only element, anything else is wrapped. -/
def NewMultiWriteSyncer (ws : List Sink) : WriteSyncer :=
  match ws with
  | [s] => .single s
  | _ => .multi ws

/-- Write on a write syncer.  The multi syncer writes to every member in
order, also after a member failed. -/
def WriteSyncer.Write (env : Env) (out : WriteSyncer) (r : Record) (w : World) : World :=
  match out with
  | .single s => s.Write env r w
  | .multi ws => ws.foldl (fun acc s => s.Write env r acc) w

/-- The leaf sinks behind a write syncer. -/
def WriteSyncer.sinks (out : WriteSyncer) : List Sink :=
  match out with
  | .single s => [s]
  | .multi ws => ws

/-! ## Library layer: core, logger, checked entry -/

/-- How a call ends: it returns a value, it panics with a value, or it ends
the process with an exit status. -/
inductive Outcome (α : Type) where
  | returned (a : α)
  | panicked (v : String)
  | exited (code : Int)
  deriving DecidableEq, Repr

/-- The ioCore of zapcore.NewCore(enc, out, NewAtomicLevelAt(level)). -/
structure Core where
  enc : Encoder
  out : WriteSyncer
  level : Int
  deriving DecidableEq, Repr

/-- Enabled of the level enabler: a level is enabled when it is at least the
configured one. -/
def Core.Enabled (c : Core) (lvl : Int) : Bool := decide (c.level ≤ lvl)

/-- Write of the io core: encode the entry and write it once to the output. -/
def Core.Write (env : Env) (c : Core) (ent : Entry) (fields : List Field) (w : World) : World :=
  c.out.Write env (EncodeEntry c.enc ent fields) w

/-- zapcore.CheckWriteAction. -/
inductive CheckWriteAction where
  | WriteThenNoop
  | WriteThenPanic
  | WriteThenFatal
  deriving DecidableEq, Repr

/-- zapcore.CheckedEntry: the entry, what to do after writing it, and the
cores that agreed to write it. -/
structure CheckedEntry where
  Entry : Entry
  should : CheckWriteAction
  cores : List Core
  deriving DecidableEq, Repr

/-- AddCore on a possibly nil checked entry. -/
def CheckedEntry.AddCore (ce : Option CheckedEntry) (ent : ZapLog.Entry) (core : Core) :
    Option CheckedEntry :=
  match ce with
  | none => some { Entry := ent, should := .WriteThenNoop, cores := [core] }
  | some c => some { c with cores := c.cores ++ [core] }

/-- Should on a possibly nil checked entry. -/
def CheckedEntry.Should (ce : Option CheckedEntry) (ent : ZapLog.Entry) (should : CheckWriteAction) :
    Option CheckedEntry :=
  match ce with
  | none => some { Entry := ent, should := should, cores := [] }
  | some c => some { c with should := should }

/-- Check of the io core: the core adds itself when the level is enabled. -/
def Core.Check (c : Core) (ent : Entry) (ce : Option CheckedEntry) : Option CheckedEntry :=
  if c.Enabled ent.Level then CheckedEntry.AddCore ce ent c else ce

/-- Write of a checked entry: every registered core writes the entry, then
the terminal action runs: a panic with the message, or exit status one. -/
def CheckedEntry.Write (env : Env) (ce : CheckedEntry) (fields : List Field) (w : World) :
    Outcome Unit × World :=
  let w1 := ce.cores.foldl (fun acc c => c.Write env ce.Entry fields acc) w
  match ce.should with
  | .WriteThenNoop => (.returned (), w1)
  | .WriteThenPanic => (.panicked ce.Entry.Message, w1)
  | .WriteThenFatal => (.exited 1, w1)

/-- zap.Logger as built by zap.New with at most the AddCaller and
AddCallerSkip options. Development mode is never switched on by the package,
so it is not a member. -/
structure Logger where
  core : Core
  addCaller : Bool
  callerSkip : Int
  deriving DecidableEq, Repr

/-- The number of frames between `check` and the caller of the logger
method. -/
def callerSkipOffset : Int := 2

/-- Logger.check of zap. Below DPanicLevel a disabled level returns nil at
once. Otherwise the core is asked, the panic and fatal levels attach their
terminal action even when the core declined, and the caller is captured only
when the entry will be written: runtime.Caller is asked for the frame at the
skip of the logger plus the offset, a 64 bit sum, and the entry has a caller
only when a frame is found. -/
def Logger.check (env : Env) (log : Logger) (lvl : Int) (msg : String) : Option CheckedEntry :=
  if lvl < DPanicLevel ∧ log.core.Enabled lvl = false then none
  else
    let ent : Entry := { Level := lvl, Message := msg, Caller := none }
    let ce := log.core.Check ent none
    let willWrite := ce.isSome
    let ce :=
      if lvl = PanicLevel then CheckedEntry.Should ce ent .WriteThenPanic
      else if lvl = FatalLevel then CheckedEntry.Should ce ent .WriteThenFatal
      else ce
    if willWrite = false then ce
    else if log.addCaller then
      ce.map (fun c =>
        { c with Entry :=
          { c.Entry with
            Caller := runtimeCaller env (wrapInt64 (log.callerSkip + callerSkipOffset)) } })
    else ce

/-- The common body of the level methods of zap.Logger: check, then write
when the check gave an entry. -/
def Logger.Log (env : Env) (log : Logger) (lvl : Int) (msg : String) (fields : List Field)
    (w : World) : Outcome Unit × World :=
  match log.check env.deeper lvl msg with
  | some ce => ce.Write env fields w
  | none => (.returned (), w)

/-- Logger.Check of zap, the exported entrance to check. -/
def Logger.Check (env : Env) (log : Logger) (lvl : Int) (msg : String) : Option CheckedEntry :=
  log.check env.deeper lvl msg

/-- Logger.Debug of zap. -/
def Logger.Debug (env : Env) (log : Logger) (msg : String) (fields : List Field) (w : World) :=
  log.Log env DebugLevel msg fields w
/-- Logger.Info of zap. -/
def Logger.Info (env : Env) (log : Logger) (msg : String) (fields : List Field) (w : World) :=
  log.Log env InfoLevel msg fields w
/-- Logger.Warn of zap. -/
def Logger.Warn (env : Env) (log : Logger) (msg : String) (fields : List Field) (w : World) :=
  log.Log env WarnLevel msg fields w
/-- Logger.Error of zap. -/
def Logger.Error (env : Env) (log : Logger) (msg : String) (fields : List Field) (w : World) :=
  log.Log env ErrorLevel msg fields w
/-- Logger.DPanic of zap (outside development mode it only logs). -/
def Logger.DPanic (env : Env) (log : Logger) (msg : String) (fields : List Field) (w : World) :=
  log.Log env DPanicLevel msg fields w
/-- zap.SugaredLogger: a wrapper around a base logger. -/
structure SugaredLogger where
  base : Logger
  deriving DecidableEq, Repr

/-- Logger.Sugar of zap: the base is a clone that skips two more frames. -/
def Logger.Sugar (log : Logger) : SugaredLogger :=
  { base := { log with callerSkip := wrapInt64 (log.callerSkip + 2) } }

/-- The message zap logs for a key without a value. -/
def oddNumberErrMsg : String := "Ignored key without a value."
/-- The message zap logs for pairs whose key is not a string. -/
def nonStringKeyErrMsg : String := "Ignored key-value pairs with non-string keys."

/-- getMessage of the sugared logger. -/
def getMessage (env : Env) (template : String) (fmtArgs : List Arg) : String :=
  match fmtArgs with
  | [] => template
  | _ =>
    if template ≠ "" then env.Sprintf template fmtArgs
    else
      match fmtArgs with
      | [.value (.str s)] => s
      | _ => env.Sprint fmtArgs

/-- The loop of sweetenFields: strongly typed fields are taken as they are,
the rest is read as key and value pairs. The result is the fields, the
dangling last key if there is one, and the pairs whose key is not a string. -/
def sweetenPairs : List Arg → List Field × Option Arg × List (Arg × Arg)
  | [] => ([], none, [])
  | .field f :: rest =>
    let r := sweetenPairs rest
    (f :: r.1, r.2.1, r.2.2)
  | [.value v] => ([], some (.value v), [])
  | .value k :: val :: rest =>
    let r := sweetenPairs rest
    match k with
    | .str key => (zapAny key val :: r.1, r.2.1, r.2.2)
    | _ => (r.1, r.2.1, (.value k, val) :: r.2.2)

/-- sweetenFields of the sugared logger. A dangling key and pairs with a
key that is not a string are each reported through DPanic of the base logger,
which only logs since development mode is off. -/
def SugaredLogger.sweetenFields (env : Env) (s : SugaredLogger) (args : List Arg) (w : World) :
    List Field × World :=
  let r := sweetenPairs args
  let w1 :=
    match r.2.1 with
    | some a => (s.base.DPanic env.deeper oddNumberErrMsg [zapAny "ignored" a] w).2
    | none => w
  let w2 :=
    if r.2.2 ≠ [] then
      (s.base.DPanic env.deeper nonStringKeyErrMsg [⟨"invalid", .other "invalidPairs"⟩] w1).2
    else w1
  (r.1, w2)

/-- SugaredLogger.log of zap, the body shared by all f and w methods. -/
def SugaredLogger.log (env : Env) (s : SugaredLogger) (lvl : Int) (template : String)
    (fmtArgs : List Arg) (context : List Arg) (w : World) : Outcome Unit × World :=
  if lvl < DPanicLevel ∧ s.base.core.Enabled lvl = false then (.returned (), w)
  else
    let msg := getMessage env template fmtArgs
    match s.base.Check env.deeper lvl msg with
    | some ce =>
      let fw := s.sweetenFields env.deeper context w
      ce.Write env fw.1 fw.2
    | none => (.returned (), w)

/-- SugaredLogger.Debugf of zap. -/
def SugaredLogger.Debugf (env : Env) (s : SugaredLogger) (template : String) (args : List Arg)
    (w : World) := s.log env.deeper DebugLevel template args [] w
/-- SugaredLogger.Debugw of zap. -/
def SugaredLogger.Debugw (env : Env) (s : SugaredLogger) (msg : String) (keysAndValues : List Arg)
    (w : World) := s.log env.deeper DebugLevel msg [] keysAndValues w
/-- Config of `log.go`. -/
structure Config where
  Level : Int
  EncodeLogsAsJSON : Bool
  StdLoggingDisabled : Bool
  FileLoggingEnabled : Bool
  Directory : String
  Filename : String
  MaxSize : Int
  MaxBackups : Int
  MaxAge : Int
  IsAddCaller : Bool
  CallerSkip : Int
  deriving DecidableEq, Repr

/-- Config.newZapLogger: console encoder unless EncodeLogsAsJSON, a core on
the given output with the configured level, and the caller options only when
IsAddCaller is set. AddCallerSkip adds the configured skip to the skip of a
new logger, which is zero. -/
def Config.newZapLogger (c : Config) (output : WriteSyncer) : Logger :=
  let encoder := if c.EncodeLogsAsJSON then Encoder.json else Encoder.console
  if c.IsAddCaller then
    { core := { enc := encoder, out := output, level := c.Level },
      addCaller := true, callerSkip := wrapInt64 (0 + c.CallerSkip) }
  else
    { core := { enc := encoder, out := output, level := c.Level },
      addCaller := false, callerSkip := 0 }

/-- The package variable defaultCfg; members not named have their zero value. -/
def defaultCfg : Config :=
  { Level := InfoLevel, EncodeLogsAsJSON := false, StdLoggingDisabled := false,
    FileLoggingEnabled := false, Directory := "", Filename := "", MaxSize := 0,
    MaxBackups := 0, MaxAge := 0, IsAddCaller := true, CallerSkip := 1 }

/-- The process state: the package variable DefaultZapLogger and the world. -/
structure State where
  DefaultZapLogger : Logger
  world : World
  deriving DecidableEq, Repr

/-- The state at process start: DefaultZapLogger is initialised from
defaultCfg on os.Stdout and nothing has been written. -/
def initialState : State :=
  { DefaultZapLogger := defaultCfg.newZapLogger (.single .stdout),
    world := { stdout := [], files := [] } }

/-- Run a logger call on the world of a state. -/
def onWorld (st : State) (r : Outcome Unit × World) : Outcome Unit × State :=
  (r.1, { st with world := r.2 })

/-- Sugar of the package. -/
def Sugar (st : State) : SugaredLogger := st.DefaultZapLogger.Sugar

/-- Debug of the package. -/
def Debug (env : Env) (msg : String) (fields : List Field) (st : State) :=
  onWorld st (st.DefaultZapLogger.Debug env.deeper msg fields st.world)
/-- Debugf of the package. -/
def Debugf (env : Env) (template : String) (args : List Arg) (st : State) :=
  onWorld st (st.DefaultZapLogger.Sugar.Debugf env.deeper template args st.world)
/-- Debugw of the package. -/
def Debugw (env : Env) (msg : String) (keyAndValues : List Arg) (st : State) :=
  onWorld st (st.DefaultZapLogger.Sugar.Debugw env.deeper msg keyAndValues st.world)

/-- Info of the package. -/
def Info (env : Env) (msg : String) (fields : List Field) (st : State) :=
  onWorld st (st.DefaultZapLogger.Info env.deeper msg fields st.world)
/-- Warn of the package. -/
def Warn (env : Env) (msg : String) (fields : List Field) (st : State) :=
  onWorld st (st.DefaultZapLogger.Warn env.deeper msg fields st.world)
/-- Error of the package. -/
def Error (env : Env) (msg : String) (fields : List Field) (st : State) :=
  onWorld st (st.DefaultZapLogger.Error env.deeper msg fields st.world)
/-- newRollingFile of the package. When the directory cannot be made, Error
is called (on the logger that is active at that moment) and the function
panics with the error. Otherwise it gives a lumberjack writer on the joined
path. -/
def newRollingFile (env : Env) (config : Config) (st : State) : Outcome Sink × State :=
  match env.MkdirAll config.Directory with
  | some err =>
    match Error env.deeper "failed create log directory"
        [zapError err, zapString "path" config.Directory] st with
    | (.returned _, st1) => (.panicked err, st1)
    | (.panicked v, st1) => (.panicked v, st1)
    | (.exited n, st1) => (.exited n, st1)
  | none =>
    (.returned (.file
      { Filename := env.Join config.Directory config.Filename,
        MaxSize := config.MaxSize,
        MaxAge := config.MaxAge,
        MaxBackups := config.MaxBackups }), st)

/-- The first part of Config.Init: the slice `writers` as it stands just
before the new logger is built. -/
def Config.assembleWriters (env : Env) (c : Config) (st : State) : Outcome (List Sink) × State :=
  let writers : List Sink := []
  let writers := if !c.StdLoggingDisabled then writers ++ [Sink.stdout] else writers
  if c.FileLoggingEnabled then
    match newRollingFile env.deeper c st with
    | (.returned f, st1) => (.returned (writers ++ [f]), st1)
    | (.panicked v, st1) => (.panicked v, st1)
    | (.exited n, st1) => (.exited n, st1)
  else (.returned writers, st)

/-- The fields of the record Config.Init logs. -/
def Config.summaryFields (c : Config) : List Field :=
  [ zapBool "stdLogging" (!c.StdLoggingDisabled),
    zapBool "fileLogging" c.FileLoggingEnabled,
    zapBool "jsonLogOutput" c.EncodeLogsAsJSON,
    zapString "logDirectory" c.Directory,
    zapString "fileName" c.Filename,
    zapInt "maxSizeMB" c.MaxSize,
    zapInt "maxBackups" c.MaxBackups,
    zapInt "maxAgeInDays" c.MaxAge ]

/-- Config.Init of the package: assemble the writers, replace
DefaultZapLogger by a logger on their combination, then log the summary
through the facade function Info. -/
def Config.Init (env : Env) (c : Config) (st : State) : Outcome Unit × State :=
  match c.assembleWriters env st with
  | (.returned writers, st1) =>
    let st2 := { st1 with DefaultZapLogger := c.newZapLogger (NewMultiWriteSyncer writers) }
    Info env.deeper "logging configured" c.summaryFields st2
  | (.panicked v, st1) => (.panicked v, st1)
  | (.exited n, st1) => (.exited n, st1)

/-! ## The four ordinary severities, for stating properties -/

/-- The severities whose facade functions are meant to return. -/
inductive Severity where
  | debug
  | info
  | warn
  | error
  deriving DecidableEq, Repr

/-- The zapcore level of a severity. -/
def Severity.level : Severity → Int
  | .debug => DebugLevel
  | .info => InfoLevel
  | .warn => WarnLevel
  | .error => ErrorLevel

/-- The lower-case name of a severity. -/
def Severity.name : Severity → String
  | .debug => "debug"
  | .info => "info"
  | .warn => "warn"
  | .error => "error"

/-- The plain facade function of a severity. -/
def Severity.plain (env : Env) : Severity → String → List Field → State → Outcome Unit × State
  | .debug => Debug env
  | .info => Info env
  | .warn => Warn env
  | .error => Error env

/-- A sample environment: every directory can be made except the one named
"/nonexistent-no-permission", paths are joined with a slash, every file write
is accepted and nothing rotates; calls come from a function with nothing but
the frame that started it above, and a negative skip finds no frame. -/
def sampleEnv : Env :=
  { MkdirAll := fun d => if d = "/nonexistent-no-permission" then some "mkdir: permission denied" else none,
    Join := fun d f => d ++ "/" ++ f,
    Sprintf := fun t _ => t,
    Sprint := fun _ => "",
    fileAccepts := fun _ _ _ => true,
    fileRotates := fun _ _ _ => false,
    stackDepth := 0,
    runtimeFrame := fun _ => false }

/-- The configuration built in `main.go`. -/
def mainCfg : Config :=
  { Level := DebugLevel, EncodeLogsAsJSON := false, FileLoggingEnabled := false,
    StdLoggingDisabled := false, MaxSize := 100000, MaxBackups := 3, MaxAge := 7,
    IsAddCaller := true, CallerSkip := 1, Directory := "./out/", Filename := "core.log" }

/-- The configuration of `main.go` without caller capture. -/
def quietCfg : Config := { mainCfg with IsAddCaller := false }

/-- The configuration of the scenario with a directory that cannot be made:
file logging on, every member not named at its zero value. -/
def badDirCfg : Config :=
  { Level := InfoLevel, EncodeLogsAsJSON := false, StdLoggingDisabled := false,
    FileLoggingEnabled := true, Directory := "/nonexistent-no-permission",
    Filename := "x.log", MaxSize := 0, MaxBackups := 0, MaxAge := 0,
    IsAddCaller := false, CallerSkip := 0 }

/-- The list of sinks as the specification words it: standard output unless
it is disabled, followed by the rotating file when file logging is enabled. -/
def Config.statedSinks (env : Env) (c : Config) : List Sink :=
  (if c.StdLoggingDisabled then [] else [Sink.stdout]) ++
  (if c.FileLoggingEnabled then
    [Sink.file { Filename := env.Join c.Directory c.Filename, MaxSize := c.MaxSize,
                 MaxAge := c.MaxAge, MaxBackups := c.MaxBackups }]
   else [])

/-- The record a logger writes for an entry of a level with a message and
fields, when it writes one; the environment is the one `check` runs in. -/
def Logger.recordOf (env : Env) (log : Logger) (lvl : Int) (msg : String)
    (fields : List Field) : Record :=
  { enc := log.core.enc, level := Level.String lvl, msg := msg,
    caller :=
      if log.addCaller then runtimeCaller env (wrapInt64 (log.callerSkip + callerSkipOffset))
      else none,
    fields := fields }

/-! ## Helper lemmas on the library layer -/

theorem check_of_disabled (env : Env) (log : Logger) (lvl : Int) (msg : String)
    (h3 : lvl < DPanicLevel) (hlt : lvl < log.core.level) : log.check env lvl msg = none := by
  have hd : log.core.Enabled lvl = false := by
    simp [Core.Enabled]; exact hlt
  simp [Logger.check, h3, hd]

theorem Log_of_disabled (env : Env) (log : Logger) (lvl : Int) (msg : String)
    (fields : List Field) (w : World)
    (h3 : lvl < DPanicLevel) (hlt : lvl < log.core.level) :
    log.Log env lvl msg fields w = (.returned (), w) := by
  simp [Logger.Log, check_of_disabled env.deeper log lvl msg h3 hlt]

theorem sugar_log_of_disabled (env : Env) (log : Logger) (lvl : Int) (template : String)
    (fmtArgs context : List Arg) (w : World)
    (h3 : lvl < DPanicLevel) (hlt : lvl < log.core.level) :
    log.Sugar.log env lvl template fmtArgs context w = (.returned (), w) := by
  have hd : log.Sugar.base.core.Enabled lvl = false := by
    simp [Core.Enabled, Logger.Sugar]; exact hlt
  simp [SugaredLogger.log, h3, hd]

theorem Sink_Write_deeper (env : Env) (s : Sink) (r : Record) (w : World) :
    s.Write env.deeper r w = s.Write env r w := by
  cases s <;> rfl

theorem WriteSyncer_Write_deeper (env : Env) (out : WriteSyncer) (r : Record) (w : World) :
    out.Write env.deeper r w = out.Write env r w := by
  cases out with
  | single s => exact Sink_Write_deeper env s r w
  | multi ws =>
    simp only [WriteSyncer.Write, Sink_Write_deeper]

theorem Log_of_enabled (env : Env) (log : Logger) (lvl : Int) (msg : String)
    (fields : List Field) (w : World)
    (h3 : lvl < DPanicLevel) (hle : log.core.level ≤ lvl) :
    log.Log env lvl msg fields w
      = (.returned (), log.core.out.Write env (log.recordOf env.deeper lvl msg fields) w) := by
  have he : log.core.Enabled lvl = true := by
    simp [Core.Enabled]; exact hle
  have h4 : lvl ≠ PanicLevel := by
    intro h; rw [h] at h3; exact absurd h3 (by decide)
  have h5 : lvl ≠ FatalLevel := by
    intro h; rw [h] at h3; exact absurd h3 (by decide)
  cases hc : log.addCaller <;>
    simp [Logger.Log, Logger.check, he, h4, h5, hc, Core.Check, CheckedEntry.AddCore,
      CheckedEntry.Write, Core.Write, EncodeEntry, Logger.recordOf]

theorem recordOf_enc (env : Env) (log : Logger) (lvl : Int) (msg : String)
    (fields : List Field) : (log.recordOf env lvl msg fields).enc = log.core.enc := rfl

theorem recordOf_level (env : Env) (log : Logger) (lvl : Int) (msg : String)
    (fields : List Field) : (log.recordOf env lvl msg fields).level = Level.String lvl := rfl

theorem recordOf_msg (env : Env) (log : Logger) (lvl : Int) (msg : String)
    (fields : List Field) : (log.recordOf env lvl msg fields).msg = msg := rfl

theorem recordOf_fields (env : Env) (log : Logger) (lvl : Int) (msg : String)
    (fields : List Field) : (log.recordOf env lvl msg fields).fields = fields := rfl

theorem recordOf_caller_of_off (env : Env) (log : Logger) (lvl : Int) (msg : String)
    (fields : List Field) (h : log.addCaller = false) :
    (log.recordOf env lvl msg fields).caller = none := by
  simp [Logger.recordOf, h]

theorem Log_outcome_of_low (env : Env) (log : Logger) (lvl : Int) (msg : String)
    (fields : List Field) (w : World) (h3 : lvl < DPanicLevel) :
    (log.Log env lvl msg fields w).1 = .returned () := by
  by_cases h : log.core.level ≤ lvl
  · rw [Log_of_enabled env log lvl msg fields w h3 h]
  · rw [Log_of_disabled env log lvl msg fields w h3 (not_le.mp h)]

theorem Log_world_of_low (env : Env) (log : Logger) (lvl : Int) (msg : String)
    (fields : List Field) (w : World) (h3 : lvl < DPanicLevel) :
    (log.Log env lvl msg fields w).2
      = if log.core.level ≤ lvl then
          log.core.out.Write env (log.recordOf env.deeper lvl msg fields) w
        else w := by
  by_cases h : log.core.level ≤ lvl
  · rw [Log_of_enabled env log lvl msg fields w h3 h, if_pos h]
  · rw [Log_of_disabled env log lvl msg fields w h3 (not_le.mp h), if_neg h]

theorem onWorld_logger (st : State) (r : Outcome Unit × World) :
    (onWorld st r).2.DefaultZapLogger = st.DefaultZapLogger := rfl

theorem Error_outcome (env : Env) (msg : String) (fields : List Field) (st : State) :
    (Error env msg fields st).1 = .returned () :=
  Log_outcome_of_low env.deeper st.DefaultZapLogger ErrorLevel msg fields st.world (by decide)

theorem newRollingFile_of_mkdir_error (env : Env) (c : Config) (st : State) (err : String)
    (hdir : env.MkdirAll c.Directory = some err) :
    newRollingFile env c st
      = (.panicked err,
          (Error env.deeper "failed create log directory"
            [zapError err, zapString "path" c.Directory] st).2) := by
  have h := Error_outcome env.deeper "failed create log directory"
    [zapError err, zapString "path" c.Directory] st
  unfold newRollingFile
  rw [hdir]
  dsimp only
  generalize Error env.deeper "failed create log directory"
    [zapError err, zapString "path" c.Directory] st = r at h
  obtain ⟨o, st1⟩ := r
  simp at h
  subst h
  rfl

theorem assembleWriters_of_ok (env : Env) (c : Config) (st : State)
    (hok : c.FileLoggingEnabled = false ∨ env.MkdirAll c.Directory = none) :
    c.assembleWriters env st = (.returned (c.statedSinks env), st) := by
  have hmk : env.deeper.MkdirAll = env.MkdirAll := rfl
  have hjoin : env.deeper.Join = env.Join := rfl
  cases hf : c.FileLoggingEnabled
  · cases hs : c.StdLoggingDisabled <;> simp [Config.assembleWriters, Config.statedSinks, hf, hs]
  · have hdir : env.MkdirAll c.Directory = none := by
      rcases hok with h | h
      · rw [hf] at h; exact absurd h (by decide)
      · exact h
    cases hs : c.StdLoggingDisabled <;>
      simp [Config.assembleWriters, Config.statedSinks, hf, hs, newRollingFile, hmk, hjoin, hdir]

theorem Init_of_ok (env : Env) (c : Config) (st : State)
    (hok : c.FileLoggingEnabled = false ∨ env.MkdirAll c.Directory = none) :
    c.Init env st
      = Info env.deeper "logging configured" c.summaryFields
          { st with DefaultZapLogger := c.newZapLogger (NewMultiWriteSyncer (c.statedSinks env)) } := by
  simp [Config.Init, assembleWriters_of_ok env c st hok]

theorem Init_of_mkdir_error (env : Env) (c : Config) (st : State) (err : String)
    (hfile : c.FileLoggingEnabled = true) (hdir : env.MkdirAll c.Directory = some err) :
    c.Init env st
      = (.panicked err,
          (Error env.deeper.deeper "failed create log directory"
            [zapError err, zapString "path" c.Directory] st).2) := by
  have hdir2 : env.deeper.MkdirAll c.Directory = some err := hdir
  simp [Config.Init, Config.assembleWriters, hfile,
    newRollingFile_of_mkdir_error env.deeper c st err hdir2]

theorem ok_of_Init_returned (env : Env) (c : Config) (st : State)
    (h : (c.Init env st).1 = .returned ()) :
    c.FileLoggingEnabled = false ∨ env.MkdirAll c.Directory = none := by
  cases hf : c.FileLoggingEnabled
  · exact Or.inl rfl
  · cases hd : env.MkdirAll c.Directory with
    | none => exact Or.inr rfl
    | some err =>
      rw [Init_of_mkdir_error env c st err hf hd] at h
      simp at h

theorem Init_logger_of_returned (env : Env) (c : Config) (st : State)
    (h : (c.Init env st).1 = .returned ()) :
    (c.Init env st).2.DefaultZapLogger
      = c.newZapLogger (NewMultiWriteSyncer (c.statedSinks env)) := by
  rw [Init_of_ok env c st (ok_of_Init_returned env c st h)]
  rfl

theorem newZapLogger_level (c : Config) (out : WriteSyncer) :
    (c.newZapLogger out).core.level = c.Level := by
  cases h : c.IsAddCaller <;> simp [Config.newZapLogger, h]

theorem newZapLogger_out (c : Config) (out : WriteSyncer) :
    (c.newZapLogger out).core.out = out := by
  cases h : c.IsAddCaller <;> simp [Config.newZapLogger, h]

theorem newZapLogger_enc (c : Config) (out : WriteSyncer) :
    (c.newZapLogger out).core.enc = if c.EncodeLogsAsJSON then .json else .console := by
  cases h : c.IsAddCaller <;> simp [Config.newZapLogger, h]

theorem newZapLogger_addCaller (c : Config) (out : WriteSyncer) :
    (c.newZapLogger out).addCaller = c.IsAddCaller := by
  cases h : c.IsAddCaller <;> simp [Config.newZapLogger, h]

theorem Severity_level_lt (s : Severity) : s.level < DPanicLevel := by
  cases s <;> decide

theorem Severity_level_name (s : Severity) : Level.String s.level = s.name := by
  cases s <;> rfl

theorem Init_returned_of_ok (env : Env) (c : Config) (st : State)
    (hok : c.FileLoggingEnabled = false ∨ env.MkdirAll c.Directory = none) :
    (c.Init env st).1 = .returned () := by
  rw [Init_of_ok env c st hok]
  exact Log_outcome_of_low env.deeper.deeper _ InfoLevel _ _ _ (by decide)

theorem Init_eq_of_ok (env : Env) (c : Config) (st : State)
    (hok : c.FileLoggingEnabled = false ∨ env.MkdirAll c.Directory = none) :
    c.Init env st
      = (.returned (),
          { DefaultZapLogger := c.newZapLogger (NewMultiWriteSyncer (c.statedSinks env)),
            world :=
              if c.Level ≤ InfoLevel then
                (NewMultiWriteSyncer (c.statedSinks env)).Write env
                  ((c.newZapLogger (NewMultiWriteSyncer (c.statedSinks env))).recordOf
                    env.deeper.deeper.deeper InfoLevel "logging configured" c.summaryFields)
                  st.world
              else st.world }) := by
  rw [Init_of_ok env c st hok]
  have h3 : InfoLevel < DPanicLevel := by decide
  have ho := Log_outcome_of_low env.deeper.deeper
    (c.newZapLogger (NewMultiWriteSyncer (c.statedSinks env)))
    InfoLevel "logging configured" c.summaryFields st.world h3
  have hw := Log_world_of_low env.deeper.deeper
    (c.newZapLogger (NewMultiWriteSyncer (c.statedSinks env)))
    InfoLevel "logging configured" c.summaryFields st.world h3
  rw [newZapLogger_level, newZapLogger_out, WriteSyncer_Write_deeper,
    WriteSyncer_Write_deeper] at hw
  simp only [Info, onWorld, Logger.Info]
  rw [ho, hw]

theorem Init_eq_of_mkdir_error (env : Env) (c : Config) (st : State) (err : String)
    (hfile : c.FileLoggingEnabled = true) (hdir : env.MkdirAll c.Directory = some err) :
    c.Init env st
      = (.panicked err,
          { DefaultZapLogger := st.DefaultZapLogger,
            world :=
              if st.DefaultZapLogger.core.level ≤ ErrorLevel then
                st.DefaultZapLogger.core.out.Write env
                  (st.DefaultZapLogger.recordOf env.deeper.deeper.deeper.deeper ErrorLevel
                    "failed create log directory"
                    [zapError err, zapString "path" c.Directory])
                  st.world
              else st.world }) := by
  rw [Init_of_mkdir_error env c st err hfile hdir]
  have hw := Log_world_of_low env.deeper.deeper.deeper st.DefaultZapLogger ErrorLevel
    "failed create log directory" [zapError err, zapString "path" c.Directory] st.world
    (by decide)
  rw [WriteSyncer_Write_deeper, WriteSyncer_Write_deeper, WriteSyncer_Write_deeper] at hw
  simp only [Error, onWorld, Logger.Error]
  rw [hw]

/-- C3: for a configuration with standard output on and file logging off,
and a severity at or above the configured level, Init returns and installs
the logger built from the configuration on standard output; the plain facade
function of that severity with a message and no fields, called afterwards
from anywhere, returns and appends exactly one record to standard output,
touching no file. The level text of the record is the lower-case name of the
severity, its message is the given one, it has no fields, its encoder is the
one the configuration selects, and it has no caller when the configuration
does not ask for one. -/
theorem console_record (env0 env : Env) (c : Config) (st : State) (s : Severity) (m : String)
    (hstd : c.StdLoggingDisabled = false) (hfile : c.FileLoggingEnabled = false)
    (hle : c.Level ≤ s.level) :
    (c.Init env0 st).1 = .returned ()
    ∧ (c.Init env0 st).2.DefaultZapLogger = c.newZapLogger (.single .stdout)
    ∧ ∃ r : Record,
        s.plain env m [] (c.Init env0 st).2
          = (.returned (),
              { DefaultZapLogger := c.newZapLogger (.single .stdout),
                world :=
                  { stdout := (c.Init env0 st).2.world.stdout ++ [r],
                    files := (c.Init env0 st).2.world.files } })
        ∧ r.enc = (if c.EncodeLogsAsJSON then .json else .console)
        ∧ r.level = s.name
        ∧ r.msg = m
        ∧ r.fields = []
        ∧ (c.IsAddCaller = false → r.caller = none) := by
  have hok : c.FileLoggingEnabled = false ∨ env0.MkdirAll c.Directory = none := Or.inl hfile
  have hret := Init_returned_of_ok env0 c st hok
  have hsinks : c.statedSinks env0 = [Sink.stdout] := by simp [Config.statedSinks, hstd, hfile]
  have hlog : (c.Init env0 st).2.DefaultZapLogger = c.newZapLogger (.single .stdout) := by
    rw [Init_logger_of_returned env0 c st hret, hsinks]; rfl
  refine ⟨hret, hlog, ?_⟩
  generalize (c.Init env0 st).2 = st1 at hlog
  obtain ⟨L, w⟩ := st1
  simp only at hlog
  subst hlog
  have hlvl : (c.newZapLogger (.single .stdout)).core.level ≤ s.level := by
    rw [newZapLogger_level]; exact hle
  have hp := Log_of_enabled env.deeper (c.newZapLogger (.single .stdout)) s.level m [] w
    (Severity_level_lt s) hlvl
  have hgoal : s.plain env m [] ⟨c.newZapLogger (.single .stdout), w⟩
      = onWorld ⟨c.newZapLogger (.single .stdout), w⟩
          ((c.newZapLogger (.single .stdout)).Log env.deeper s.level m [] w) := by
    cases s <;> rfl
  refine ⟨(c.newZapLogger (.single .stdout)).recordOf env.deeper.deeper s.level m [], ?_,
    newZapLogger_enc c _, Severity_level_name s, rfl, rfl, ?_⟩
  · rw [hgoal, hp, newZapLogger_out]
    rfl
  · intro h
    exact recordOf_caller_of_off _ _ _ _ _ (by rw [newZapLogger_addCaller]; exact h)

/-- C3 at the input of `main.go`: after Init of the debug configuration,
Debug appends one console record with level "debug" and the message, while
the logger of process start drops the same call. -/
theorem console_record_witness :
    mainCfg.StdLoggingDisabled = false ∧ mainCfg.FileLoggingEnabled = false
    ∧ mainCfg.Level ≤ Severity.debug.level
    ∧ (∃ r : Record,
        Debug sampleEnv "[TestDebugMode] HelloWorld!" [] (mainCfg.Init sampleEnv initialState).2
          = (.returned (),
              { DefaultZapLogger := mainCfg.newZapLogger (.single .stdout),
                world :=
                  { stdout := (mainCfg.Init sampleEnv initialState).2.world.stdout ++ [r],
                    files := (mainCfg.Init sampleEnv initialState).2.world.files } })
        ∧ r.enc = .console
        ∧ r.level = "debug"
        ∧ r.msg = "[TestDebugMode] HelloWorld!"
        ∧ r.fields = []
        ∧ (mainCfg.IsAddCaller = false → r.caller = none))
    ∧ Debug sampleEnv "[TestDebugMode] HelloWorld!" [] initialState = (.returned (), initialState) :=
  ⟨by decide, by decide, by decide,
    (console_record sampleEnv sampleEnv mainCfg initialState .debug
      "[TestDebugMode] HelloWorld!" (by decide) (by decide) (by decide)).2.2,
    by decide⟩

/-- C5: when file logging is enabled and the directory cannot be made, Init
does not return: it panics with the error of the directory creation, and the
process-wide logger afterwards is the one that was active before the call,
whatever the other members of the configuration are. -/
theorem failed_init_keeps_logger (env : Env) (c : Config) (st : State) (err : String)
    (hfile : c.FileLoggingEnabled = true) (hdir : env.MkdirAll c.Directory = some err) :
    (c.Init env st).1 = .panicked err
    ∧ (c.Init env st).2.DefaultZapLogger = st.DefaultZapLogger := by
  rw [Init_of_mkdir_error env c st err hfile hdir]
  exact ⟨rfl, rfl⟩

/-- C5 at the scenario of the specification: the directory
"/nonexistent-no-permission" cannot be made, Init panics and the logger of
process start stays in place. -/
theorem failed_init_keeps_logger_witness :
    badDirCfg.FileLoggingEnabled = true
    ∧ sampleEnv.MkdirAll badDirCfg.Directory = some "mkdir: permission denied"
    ∧ (badDirCfg.Init sampleEnv initialState).1 = .panicked "mkdir: permission denied"
    ∧ (badDirCfg.Init sampleEnv initialState).2.DefaultZapLogger = initialState.DefaultZapLogger :=
  ⟨by decide, by decide,
    failed_init_keeps_logger sampleEnv badDirCfg initialState "mkdir: permission denied"
      (by decide) (by decide)⟩

/-- C6, refuted as stated: from the state of process start, Init of a
configuration whose directory cannot be made panics, and before it does one
error record has been written to standard output by the logger that was
active, so the state of the world is not what it was. -/
theorem no_diagnostic_counterexample :
    badDirCfg.FileLoggingEnabled = true
    ∧ sampleEnv.MkdirAll badDirCfg.Directory = some "mkdir: permission denied"
    ∧ (badDirCfg.Init sampleEnv initialState).1 = .panicked "mkdir: permission denied"
    ∧ initialState.world.stdout = []
    ∧ (badDirCfg.Init sampleEnv initialState).2.world.stdout
        = [{ enc := .console, level := "error", msg := "failed create log directory",
             caller := some 3,
             fields := [⟨"error", .err "mkdir: permission denied"⟩,
                        ⟨"path", .str "/nonexistent-no-permission"⟩] }]
    ∧ (badDirCfg.Init sampleEnv initialState).2.world ≠ initialState.world := by
  decide

/-- C6, amended: when file logging is enabled and the directory cannot be
made, Init panics with the error after exactly one emit call, at error
severity, on the logger that was active before: one record with the level
text "error", the message "failed create log directory" and the two fields
error and path, encoded by that logger, is written to the destinations of
that logger when its level is at most error, and nothing is written
otherwise. No logger is built from the configuration, so none writes. -/
theorem failed_init_logs_diagnostic (env : Env) (c : Config) (st : State) (err : String)
    (hfile : c.FileLoggingEnabled = true) (hdir : env.MkdirAll c.Directory = some err) :
    ∃ r : Record,
      c.Init env st
        = (.panicked err,
            { DefaultZapLogger := st.DefaultZapLogger,
              world :=
                if st.DefaultZapLogger.core.level ≤ ErrorLevel then
                  st.DefaultZapLogger.core.out.Write env r st.world
                else st.world })
      ∧ r.enc = st.DefaultZapLogger.core.enc
      ∧ r.level = "error"
      ∧ r.msg = "failed create log directory"
      ∧ r.fields = [⟨"error", .err err⟩, ⟨"path", .str c.Directory⟩]
      ∧ (st.DefaultZapLogger.addCaller = false → r.caller = none) :=
  ⟨st.DefaultZapLogger.recordOf env.deeper.deeper.deeper.deeper ErrorLevel
      "failed create log directory" [zapError err, zapString "path" c.Directory],
    Init_eq_of_mkdir_error env c st err hfile hdir, rfl, rfl, rfl, rfl,
    fun h => recordOf_caller_of_off _ _ _ _ _ h⟩

/-- C6 amended, at the scenario of the specification. -/
theorem failed_init_logs_diagnostic_witness :
    badDirCfg.FileLoggingEnabled = true
    ∧ sampleEnv.MkdirAll badDirCfg.Directory = some "mkdir: permission denied"
    ∧ ∃ r : Record,
        badDirCfg.Init sampleEnv initialState
          = (.panicked "mkdir: permission denied",
              { DefaultZapLogger := initialState.DefaultZapLogger,
                world := { stdout := [r], files := [] } })
        ∧ r.enc = .console
        ∧ r.level = "error"
        ∧ r.msg = "failed create log directory"
        ∧ r.fields = [⟨"error", .err "mkdir: permission denied"⟩,
                      ⟨"path", .str "/nonexistent-no-permission"⟩]
        ∧ (initialState.DefaultZapLogger.addCaller = false → r.caller = none) :=
  ⟨by decide, by decide,
    failed_init_logs_diagnostic sampleEnv badDirCfg initialState "mkdir: permission denied"
      (by decide) (by decide)⟩

/-- C7, refuted as stated: the summary record of the configuration of
`main.go` has exactly eight fields, none of which is the level, the caller
switch or the caller skip; with caller capture off, changing CallerSkip from
1 to 5 changes nothing in the outcome, the installed logger or what is
written, and changing Level from debug to info changes nothing in what is
written; and with level error no summary record is written at all. -/
theorem summary_echo_counterexample :
    (mainCfg.Init sampleEnv initialState).2.world.stdout
        = [{ enc := .console, level := "info", msg := "logging configured", caller := some 3,
             fields :=
               [⟨"stdLogging", .bool true⟩, ⟨"fileLogging", .bool false⟩,
                ⟨"jsonLogOutput", .bool false⟩, ⟨"logDirectory", .str "./out/"⟩,
                ⟨"fileName", .str "core.log"⟩, ⟨"maxSizeMB", .int 100000⟩,
                ⟨"maxBackups", .int 3⟩, ⟨"maxAgeInDays", .int 7⟩] }]
    ∧ quietCfg.CallerSkip = 1
    ∧ quietCfg.Init sampleEnv initialState
        = ({ quietCfg with CallerSkip := 5 } : Config).Init sampleEnv initialState
    ∧ quietCfg.Level = DebugLevel
    ∧ (quietCfg.Init sampleEnv initialState).2.world
        = (({ quietCfg with Level := InfoLevel } : Config).Init sampleEnv initialState).2.world
    ∧ (({ quietCfg with Level := ErrorLevel } : Config).Init sampleEnv initialState)
        = (.returned (),
            { DefaultZapLogger :=
                { core := { enc := .console, out := .single .stdout, level := ErrorLevel },
                  addCaller := false, callerSkip := 0 },
              world := { stdout := [], files := [] } }) := by
  decide

/-- C7, amended: when the directory step does not fail, Init returns after
exactly one emit call, at info severity, on the logger built from the
configuration (whatever logger was active before). The record has the level
text "info", the message "logging configured", the encoder the configuration
selects and the eight fields stdLogging (the negation of StdLoggingDisabled),
fileLogging, jsonLogOutput, logDirectory, fileName, maxSizeMB, maxBackups and
maxAgeInDays; Level, IsAddCaller and CallerSkip are not among the fields. It
is written once to the combined destination of the configuration when Level
is at most info, and nothing is written otherwise. -/
theorem summary_record (env : Env) (c : Config) (st : State)
    (hok : c.FileLoggingEnabled = false ∨ env.MkdirAll c.Directory = none) :
    ∃ r : Record,
      c.Init env st
        = (.returned (),
            { DefaultZapLogger := c.newZapLogger (NewMultiWriteSyncer (c.statedSinks env)),
              world :=
                if c.Level ≤ InfoLevel then
                  (NewMultiWriteSyncer (c.statedSinks env)).Write env r st.world
                else st.world })
      ∧ r.enc = (if c.EncodeLogsAsJSON then .json else .console)
      ∧ r.level = "info"
      ∧ r.msg = "logging configured"
      ∧ r.fields
          = [ ⟨"stdLogging", .bool (!c.StdLoggingDisabled)⟩,
              ⟨"fileLogging", .bool c.FileLoggingEnabled⟩,
              ⟨"jsonLogOutput", .bool c.EncodeLogsAsJSON⟩,
              ⟨"logDirectory", .str c.Directory⟩,
              ⟨"fileName", .str c.Filename⟩,
              ⟨"maxSizeMB", .int c.MaxSize⟩,
              ⟨"maxBackups", .int c.MaxBackups⟩,
              ⟨"maxAgeInDays", .int c.MaxAge⟩ ]
      ∧ (c.IsAddCaller = false → r.caller = none) :=
  ⟨(c.newZapLogger (NewMultiWriteSyncer (c.statedSinks env))).recordOf
      env.deeper.deeper.deeper InfoLevel "logging configured" c.summaryFields,
    Init_eq_of_ok env c st hok, newZapLogger_enc c _, rfl, rfl, rfl,
    fun h => recordOf_caller_of_off _ _ _ _ _ (by rw [newZapLogger_addCaller]; exact h)⟩

/-- C7 amended, at the configuration of `main.go`. -/
theorem summary_record_witness :
    (mainCfg.FileLoggingEnabled = false ∨ sampleEnv.MkdirAll mainCfg.Directory = none)
    ∧ ∃ r : Record,
        mainCfg.Init sampleEnv initialState
          = (.returned (),
              { DefaultZapLogger :=
                  { core := { enc := .console, out := .single .stdout, level := DebugLevel },
                    addCaller := true, callerSkip := 1 },
                world := { stdout := [r], files := [] } })
        ∧ r.enc = .console
        ∧ r.level = "info"
        ∧ r.msg = "logging configured"
        ∧ r.fields
            = [ ⟨"stdLogging", .bool true⟩, ⟨"fileLogging", .bool false⟩,
                ⟨"jsonLogOutput", .bool false⟩, ⟨"logDirectory", .str "./out/"⟩,
                ⟨"fileName", .str "core.log"⟩, ⟨"maxSizeMB", .int 100000⟩,
                ⟨"maxBackups", .int 3⟩, ⟨"maxAgeInDays", .int 7⟩ ]
        ∧ (mainCfg.IsAddCaller = false → r.caller = none) :=
  ⟨by decide, summary_record sampleEnv mainCfg initialState (by decide)⟩

/-- C9: the logger of process start is newZapLogger applied to the default
configuration (level info, console encoding, caller capture on with skip 1)
on standard output alone. It drops every debug call of the facade, and every
entry at level info or above is written as one console record to standard
output and to no file, with the caller captured at skip 1. -/
theorem default_logger :
    initialState.DefaultZapLogger = defaultCfg.newZapLogger (.single .stdout)
    ∧ defaultCfg.Level = InfoLevel
    ∧ defaultCfg.EncodeLogsAsJSON = false
    ∧ defaultCfg.IsAddCaller = true
    ∧ defaultCfg.CallerSkip = 1
    ∧ initialState.DefaultZapLogger
        = { core := { enc := .console, out := .single .stdout, level := InfoLevel },
            addCaller := true, callerSkip := 1 }
    ∧ initialState.DefaultZapLogger.core.out.sinks = [Sink.stdout]
    ∧ (∀ (env : Env) (w : World) (msg template : String) (fields : List Field)
          (args keyAndValues : List Arg),
        Debug env msg fields { initialState with world := w }
            = (.returned (), { initialState with world := w })
        ∧ Debugf env template args { initialState with world := w }
            = (.returned (), { initialState with world := w })
        ∧ Debugw env msg keyAndValues { initialState with world := w }
            = (.returned (), { initialState with world := w }))
    ∧ (∀ (env : Env) (w : World) (lvl : Int) (msg : String) (fields : List Field),
        InfoLevel ≤ lvl →
        (initialState.DefaultZapLogger.Log env lvl msg fields w).2
          = { stdout := w.stdout ++
                [{ enc := .console, level := Level.String lvl, msg := msg,
                   caller := some (1 + 2), fields := fields }],
              files := w.files }) := by
  have hL : initialState.DefaultZapLogger
      = { core := { enc := .console, out := .single .stdout, level := InfoLevel },
          addCaller := true, callerSkip := 1 } := by decide
  refine ⟨rfl, rfl, rfl, rfl, rfl, hL, rfl, ?_, ?_⟩
  · intro env w msg template fields args keyAndValues
    have hlt : DebugLevel < initialState.DefaultZapLogger.core.level := by decide
    have h3 : DebugLevel < DPanicLevel := by decide
    refine ⟨?_, ?_, ?_⟩
    · exact congrArg (onWorld { initialState with world := w })
        (Log_of_disabled env.deeper initialState.DefaultZapLogger DebugLevel msg fields w h3 hlt)
    · exact congrArg (onWorld { initialState with world := w })
        (sugar_log_of_disabled env.deeper.deeper initialState.DefaultZapLogger DebugLevel
          template args [] w h3 hlt)
    · exact congrArg (onWorld { initialState with world := w })
        (sugar_log_of_disabled env.deeper.deeper initialState.DefaultZapLogger DebugLevel
          msg [] keyAndValues w h3 hlt)
  · intro env w lvl msg fields hle
    rw [hL]
    have he : Core.Enabled { enc := .console, out := .single .stdout, level := InfoLevel } lvl
        = true := by
      simp [Core.Enabled]; exact hle
    have hcap : runtimeCaller env.deeper (wrapInt64 (1 + callerSkipOffset)) = some (1 + 2) := by
      have hw : wrapInt64 (1 + callerSkipOffset) = 3 := by decide
      rw [hw]
      simp only [runtimeCaller, Env.deeper]
      have hn : ¬ (3 : Int) < 0 := by decide
      have hd : (3 : Int) ≤ ((env.stackDepth + 1 : Nat) : Int) + 2 := by omega
      rw [if_neg hn, if_pos hd]
      rfl
    by_cases h4 : lvl = PanicLevel
    · subst h4
      simp [Logger.Log, Logger.check, he, hcap, Core.Check, CheckedEntry.AddCore,
        CheckedEntry.Should, CheckedEntry.Write, Core.Write, EncodeEntry, WriteSyncer.Write,
        Sink.Write]
    · by_cases h5 : lvl = FatalLevel
      · subst h5
        simp [Logger.Log, Logger.check, he, hcap, h4, Core.Check, CheckedEntry.AddCore,
          CheckedEntry.Should, CheckedEntry.Write, Core.Write, EncodeEntry, WriteSyncer.Write,
          Sink.Write]
      · simp [Logger.Log, Logger.check, he, hcap, h4, h5, Core.Check, CheckedEntry.AddCore,
          CheckedEntry.Should, CheckedEntry.Write, Core.Write, EncodeEntry, WriteSyncer.Write,
          Sink.Write]

/-- C9 at a concrete input: a warn entry on the logger of process start is
appended to standard output as a console record with the caller at skip 1. -/
theorem default_logger_witness :
    InfoLevel ≤ WarnLevel
    ∧ (initialState.DefaultZapLogger.Log sampleEnv WarnLevel "careful" [] initialState.world).2
        = { stdout := [{ enc := .console, level := "warn", msg := "careful", caller := some 3,
                         fields := [] }],
            files := [] } :=
  ⟨by decide,
    default_logger.2.2.2.2.2.2.2.2 sampleEnv initialState.world WarnLevel "careful" []
      (by decide)⟩

end ZapLog
